import Mathlib

/-!
# Verification of the c2cx exchange client (`src/exchange/c2cx.com/client.go`)

A shallow embedding of the reconciliation client.  The repository's own code
under `src/` is the single file `client.go`; its collaborators — the remote
Gateway operations (`CreateOrder`, `CancelOrder`, `GetBalance`,
`GetOrderBook`, `GetOrderByStatus`), the `exchange.OrderTracker` and
`exchange.OrderBookTracker` capabilities, `normalize`, `allowed`,
`Statusees` and `unixToTime` — live outside `src/` and are modelled from the
spec where a concrete definition is needed, or passed in as parameters where
the spec treats them as opaque (the Gateway calls).

Remote-call outcomes are passed to each operation as an explicit argument:
one invocation of a Go method that performs one remote call takes the
outcome of that call as a parameter.  Go's in-place mutation of the
`Client` struct is modelled by returning the updated `Client` alongside the
result.  A nil-pointer dereference of `c.Tracker` (a Go panic) is modelled
as the `Err.nilTracker` failure.  Time values (`time.Time`) are modelled as
integers (epoch instants).  `float64` amounts and prices are carried as
rationals; no claim computes with them.
-/

namespace C2CX

/-- Order side. Go: the strings `exchange.ActionBuy` / `exchange.ActionSell`. -/
inductive Side
  | buy
  | sell
deriving DecidableEq, Repr

/-- Order status. Go: the strings `exchange.StatusSubmitted`, `StatusOpened`,
`StatusPartial`, `StatusCancelled`, `StatusCompleted`. -/
inductive Status
  | submitted
  | opened
  | partialFill
  | cancelled
  | completed
deriving DecidableEq, Repr

/-- `completed` and `cancelled` are the terminal statuses of the spec's
order state machine (§4.3). -/
def Status.isTerminal : Status → Bool
  | .completed => true
  | .cancelled => true
  | _ => false

/-- Modelled from the spec: `exchange.OrderInfo`, the record held by the
Order Tracker (spec §3: id, symbol, side, status, amount, price, createdAt,
completedAt).  `accepted` is the venue-reported creation time once known,
`completedAt` is set only on transition into `completed`.  Times are epoch
integers. -/
structure OrderInfo where
  orderID : Int
  tradePair : String
  side : Side
  status : Status
  amount : Rat
  price : Rat
  accepted : Option Int
  completedAt : Option Int
deriving DecidableEq, Repr

/-- Modelled from the spec: the Order Tracker capability's state, a keyed
store of orders (spec §2 "record/lookup/mutate-by-id", §9 "a keyed store
exposing upsert/get/list-by-predicate operations").  Keyed by `orderID`. -/
abbrev Tracker := List OrderInfo

instance : DecidableEq Tracker := fun a b => inferInstanceAs (Decidable (a = b))

/-- Update-in-place by id: apply `f` to the entries whose `orderID` is `id`
(spec §4.3: "the Tracker capability is expected to be update-in-place by
id"). -/
def Tracker.mapUpd (t : Tracker) (id : Int) (f : OrderInfo → OrderInfo) : Tracker :=
  t.map fun o => if o.orderID = id then f o else o

/-- Modelled from the spec: `OrderTracker.Get` — lookup by id (spec §6
`get(id) -> OrderInfo | error`). -/
def Tracker.get (t : Tracker) (id : Int) : Option OrderInfo :=
  t.find? fun o => o.orderID == id

/-- Modelled from the spec: `OrderTracker.NewOrder(symbol, side, status,
orderID, amount, price)` — records a fresh order (spec §6; §4.1 "registers
the order in the Tracker").  Ids are unique (spec §3), so recording keeps
at most one entry per id. -/
def Tracker.newOrder (t : Tracker) (symbol : String) (side : Side) (status : Status)
    (id : Int) (amount price : Rat) : Tracker :=
  { orderID := id, tradePair := symbol, side := side, status := status,
    amount := amount, price := price, accepted := none, completedAt := none } ::
    t.filter fun o => o.orderID != id

/-- Modelled from the spec: `OrderTracker.Cancel(id)` — update-in-place by
id, setting the status to `cancelled` (spec §6 `cancel(id)`). -/
def Tracker.cancel (t : Tracker) (id : Int) : Tracker :=
  t.mapUpd id fun o => { o with status := .cancelled }

/-- Modelled from the spec: `OrderTracker.Complete(id, observedAt)` —
update-in-place by id, setting the status to `completed` and stamping the
completion time (spec §6 `complete(id, observedAt)`, §3 "completedAt: set
only on transition into completed"). -/
def Tracker.complete (t : Tracker) (id : Int) (observedAt : Int) : Tracker :=
  t.mapUpd id fun o => { o with status := .completed, completedAt := some observedAt }

/-- Modelled from the spec: `OrderTracker.UpdateOrderDetails(id, symbol,
accepted)` — update-in-place by id of the symbol and the creation timestamp
(spec §6 `updateDetails(id, symbol, createdAt)`; it carries no status
argument).  Whether an unknown id is inserted is the spec's open question
(§9); following §4.3's "update-in-place by id" it updates existing entries
only. -/
def Tracker.updateOrderDetails (t : Tracker) (id : Int) (symbol : String)
    (accepted : Int) : Tracker :=
  t.mapUpd id fun o => { o with tradePair := symbol, accepted := some accepted }

/-- Modelled from the spec: `OrderTracker.Executed()` — the currently live /
unsettled orders (spec §4.1 "the Tracker's currently executed (i.e.,
live/unsettled) orders"; §3 lifecycle: orders leave the active working set
on reaching `completed` or `cancelled`). -/
def Tracker.executed (t : Tracker) : List OrderInfo :=
  t.filter fun o => !o.status.isTerminal

/-- Modelled from the spec: `OrderTracker.Completed()` — the settled
(terminal) orders retained for historical query (spec §3 lifecycle). -/
def Tracker.completedOrders (t : Tracker) : List OrderInfo :=
  t.filter fun o => o.status.isTerminal

/-- Modelled from the spec: `OrderTracker.Status(id)` (spec §6
`status(id) -> string | error`). -/
def Tracker.statusOf (t : Tracker) (id : Int) : Option Status :=
  (t.get id).map fun o => o.status

/-- One price level of an order book (price, volume). -/
structure MarketRecord where
  price : Rat
  volume : Rat
deriving DecidableEq, Repr

/-- A full bid/ask snapshot for one symbol. -/
structure OrderBook where
  bids : List MarketRecord
  asks : List MarketRecord
deriving DecidableEq, Repr

/-- Modelled from the spec: the Order-Book Tracker capability — best-of-book
snapshots keyed by trading symbol (spec §2). -/
abbrev BookTracker := String → Option OrderBook

/-- Modelled from the spec: `OrderBookTracker.UpdateSym(symbol, bids, asks)`
— replaces the snapshot for `symbol` wholesale (spec §3 invariant: "a
snapshot is always the entire replacement for its symbol"). -/
def BookTracker.updateSym (bt : BookTracker) (symbol : String)
    (bids asks : List MarketRecord) : BookTracker :=
  fun s => if s = symbol then some { bids := bids, asks := asks } else bt s

/-- Error taxonomy (spec §7).  `remote` embeds a Gateway failure unchanged;
`nilTracker` models the Go nil-pointer panic on dereferencing a nil
`c.Tracker`. -/
inductive Err
  | remote (e : String)
  | invalidSymbol (s : String)
  | notTracked
  | currencyNotFound (c : String)
  | nilTracker
deriving DecidableEq, Repr

/-- Modelled from the spec: the venue's polled market list (`allowed` in
package c2cx; the concrete symbols are illustrative, the claims use only
membership and distinctness). -/
def allowed : List String := ["BTC_SKY", "ETH_SKY", "BTC_USDT", "ETH_USDT"]

/-- Uppercasing spelled over the character list (`String.toUpper` is
defined through the irreducible `String.mapAux`). -/
def upper (s : String) : String := String.mk (s.data.map Char.toUpper)

/-- Lowercasing spelled over the character list, the model of Go's
`strings.ToLower`. -/
def lower (s : String) : String := String.mk (s.data.map Char.toLower)

/-- Modelled from the spec: `normalize` converts a symbol into the venue's
canonical form and rejects symbols the venue does not list (spec §4.1:
"Normalizes symbol into the venue's canonical form; fails with
InvalidSymbol if normalization rejects it"). -/
def normalize (symbol : String) : Except Err String :=
  let c := upper symbol
  if allowed.contains c then .ok c else .error (.invalidSymbol symbol)

/-- Modelled from the spec: the polled status categories, the key set of
`Statusees` (spec §4.3: "{opened, partially-filled, cancelled,
completed}"). -/
def Statusees : List Status := [.opened, .partialFill, .cancelled, .completed]

/-- Modelled from the spec: `unixToTime` converts the venue's epoch-seconds
field into the local time representation; times being epoch integers here,
the conversion is the identity embedding. -/
def unixToTime (epochSeconds : Int) : Int := epochSeconds

/-- One order record returned by `GetOrderByStatus` (venue side):
`OrderID` and the epoch-seconds `CreateDate` are the fields `checkUpdate`
reads. -/
structure RemoteOrder where
  orderID : Int
  createDate : Int
deriving DecidableEq, Repr

/-- The `Client` struct (client.go lines 17–39).  `Key`, `Secret` and
`RefreshInterval` configure the remote calls and the scheduler and play no
role in the state transitions; `tracker = none` models `Tracker == nil`
(supported for order-book-only use per the struct's comment), likewise
`orderBookTracker = none` models `OrderBookTracker == nil`. -/
structure Client where
  tracker : Option Tracker
  orderBookTracker : Option BookTracker

/-- `Client.Cancel` (client.go 42–50): issue the remote cancel
(`CancelOrder`, outcome `remote`: `some e` = failed with `e`, `none` =
succeeded); on failure return the error; on success call
`Tracker.Cancel(orderID)` then `Tracker.Get(orderID)` and return the
refreshed record, or the lookup error. -/
def Client.Cancel (c : Client) (remote : Option String) (orderID : Int) :
    Except Err OrderInfo × Client :=
  match remote with
  | some e => (.error (.remote e), c)
  | none =>
    match c.tracker with
    | none => (.error .nilTracker, c)
    | some t =>
      let t1 := t.cancel orderID
      match t1.get orderID with
      | none => (.error .notTracked, { c with tracker := some t1 })
      | some o => (.ok o, { c with tracker := some t1 })

/-- The loop body of `CancelAll` (client.go 56–62): cancel each order in
turn, stopping at the first failure and returning the partial list of
refreshed records together with the error. -/
def Client.cancelList (c : Client) (remote : Int → Option String) :
    List OrderInfo → (List OrderInfo × Option Err) × Client
  | [] => (([], none), c)
  | v :: vs =>
    match c.Cancel (remote v.orderID) v.orderID with
    | (.error e, c1) => (([], some e), c1)
    | (.ok info, c1) =>
      let r := c1.cancelList remote vs
      ((info :: r.1.1, r.1.2), r.2)

/-- `Client.CancelAll` (client.go 53–64): enumerate `Tracker.Executed()`
and cancel each in turn. -/
def Client.CancelAll (c : Client) (remote : Int → Option String) :
    (List OrderInfo × Option Err) × Client :=
  match c.tracker with
  | none => (([], some .nilTracker), c)
  | some t => c.cancelList remote t.executed

/-- The loop body of `CancelMarket` (client.go 74–82): like `cancelList`
but skipping orders whose `TradePair` differs from the normalized
symbol. -/
def Client.cancelListSym (c : Client) (remote : Int → Option String) (symbol : String) :
    List OrderInfo → (List OrderInfo × Option Err) × Client
  | [] => (([], none), c)
  | v :: vs =>
    if v.tradePair = symbol then
      match c.Cancel (remote v.orderID) v.orderID with
      | (.error e, c1) => (([], some e), c1)
      | (.ok info, c1) =>
        let r := c1.cancelListSym remote symbol vs
        ((info :: r.1.1, r.1.2), r.2)
    else c.cancelListSym remote symbol vs

/-- `Client.CancelMarket` (client.go 67–84): normalize the symbol (failure
returns the normalization error and an empty list), then cancel each
executed order on that symbol in turn. -/
def Client.CancelMarket (c : Client) (remote : Int → Option String) (symbol : String) :
    (List OrderInfo × Option Err) × Client :=
  match normalize symbol with
  | .error e => (([], some e), c)
  | .ok sym =>
    match c.tracker with
    | none => (([], some .nilTracker), c)
    | some t => c.cancelListSym remote sym t.executed

/-- `Client.Buy` (client.go 87–99): normalize, place the remote order
(`CreateOrder`, outcome `remote`), and on success record the order in the
Tracker with status `submitted` and return the id. -/
def Client.Buy (c : Client) (remote : Except String Int) (symbol : String)
    (price amount : Rat) : Except Err Int × Client :=
  match normalize symbol with
  | .error e => (.error e, c)
  | .ok sym =>
    match remote with
    | .error e => (.error (.remote e), c)
    | .ok orderID =>
      match c.tracker with
      | none => (.error .nilTracker, c)
      | some t =>
        (.ok orderID,
          { c with tracker := some (t.newOrder sym .buy .submitted orderID amount price) })

/-- `Client.Sell` (client.go 102–114): as `Buy` with side `sell`. -/
def Client.Sell (c : Client) (remote : Except String Int) (symbol : String)
    (price amount : Rat) : Except Err Int × Client :=
  match normalize symbol with
  | .error e => (.error e, c)
  | .ok sym =>
    match remote with
    | .error e => (.error (.remote e), c)
    | .ok orderID =>
      match c.tracker with
      | none => (.error .nilTracker, c)
      | some t =>
        (.ok orderID,
          { c with tracker := some (t.newOrder sym .sell .submitted orderID amount price) })

/-- `Client.OrderStatus` (client.go 118–120): `Tracker.Status(orderID)`. -/
def Client.OrderStatus (c : Client) (orderID : Int) : Except Err Status :=
  match c.tracker with
  | none => .error .nilTracker
  | some t =>
    match t.statusOf orderID with
    | some s => .ok s
    | none => .error .notTracked

/-- `Client.OrderDetails` (client.go 124–127): `Tracker.Get(orderID)`. -/
def Client.OrderDetails (c : Client) (orderID : Int) : Except Err OrderInfo :=
  match c.tracker with
  | none => .error .nilTracker
  | some t =>
    match t.get orderID with
    | some o => .ok o
    | none => .error .notTracked

/-- `Client.Executed` (client.go 130): wraps `Tracker.Executed()`. -/
def Client.Executed (c : Client) : Except Err (List OrderInfo) :=
  match c.tracker with
  | none => .error .nilTracker
  | some t => .ok t.executed

/-- `Client.Completed` (client.go 133): wraps `Tracker.Completed()`. -/
def Client.Completed (c : Client) : Except Err (List OrderInfo) :=
  match c.tracker with
  | none => .error .nilTracker
  | some t => .ok t.completedOrders

/-- `Client.GetBalance` (client.go 141–150): fetch the full balance map
(`GetBalance`, outcome `remote`, an association list currency → balance
string), look up `strings.ToLower(currency)`, and fail with the
currency-not-found error when the key is absent.  The client state is not
read or written. -/
def Client.GetBalance (c : Client) (remote : Except String (List (String × String)))
    (currency : String) : Except Err String × Client :=
  match remote with
  | .error e => (.error (.remote e), c)
  | .ok info =>
    match info.lookup (lower currency) with
    | some v => (.ok v, c)
    | none => (.error (.currencyNotFound currency), c)

/-! ## The background sweep (`checkUpdate`, client.go 152–204)

`checkUpdate` spawns one goroutine per symbol for the order-book sweep and
one goroutine per (symbol, status) pair for the order-status sweep; the
goroutines of one sweep write to disjoint keys of their tracker (distinct
symbols, and the status tasks go through the tracker's internally
synchronized update-by-id operations), so each sweep's net state update is
the fold of its per-task updates.  The fetch outcomes of one cycle are
passed in as functions from the task's key to the Gateway result. -/

/-- Per-symbol body of the order-book sweep (client.go 160–169): fetch the
book for `sym`; on failure return leaving the snapshot alone; on success
replace the snapshot wholesale via `UpdateSym`. -/
def bookTask (fetch : String → Except String OrderBook) (bt : BookTracker)
    (sym : String) : BookTracker :=
  match fetch sym with
  | .error _ => bt
  | .ok orders => bt.updateSym sym orders.bids orders.asks

/-- The order-book sweep (client.go 155–173): one task per symbol in
`allowed`. -/
def bookSweep (fetch : String → Except String OrderBook) (bt : BookTracker) :
    BookTracker :=
  allowed.foldl (bookTask fetch) bt

/-- Per returned order merge of the order-status sweep (client.go 188–197):
`opened`/`partially-filled` update the entry's details with the converted
venue creation time; `cancelled` cancels the entry; `completed` completes it
stamped with the sweep's observation time `now` (`time.Now()`). -/
def applyOrder (t : Tracker) (symbol : String) (status : Status) (now : Int)
    (o : RemoteOrder) : Tracker :=
  let accepted := unixToTime o.createDate
  match status with
  | .opened => t.updateOrderDetails o.orderID symbol accepted
  | .partialFill => t.updateOrderDetails o.orderID symbol accepted
  | .cancelled => t.cancel o.orderID
  | .completed => t.complete o.orderID now
  | .submitted => t

/-- One (symbol, status) task of the order-status sweep (client.go
181–199): fetch the venue orders for the pair (`GetOrderByStatus`, no
limit); a fetch failure is logged and the task returns without touching the
Tracker; on success each returned order is merged. -/
def statusTask (fetch : String → Status → Except String (List RemoteOrder))
    (now : Int) (t : Tracker) (sym : String) (status : Status) : Tracker :=
  match fetch sym status with
  | .error _ => t
  | .ok orders => orders.foldl (fun t o => applyOrder t sym status now o) t

/-- The (symbol × status) pairs one sweep cycle fans out over (client.go
179–180: `allowed × Statusees`). -/
def sweepPairs : List (String × Status) :=
  allowed.flatMap fun sym => Statusees.map fun s => (sym, s)

/-- The order-status sweep (client.go 176–203): one task per (symbol,
status) pair, all merged into the Tracker. -/
def statusSweep (fetch : String → Status → Except String (List RemoteOrder))
    (now : Int) (t : Tracker) : Tracker :=
  sweepPairs.foldl (fun t p => statusTask fetch now t p.1 p.2) t

/-- `Client.checkUpdate` (client.go 152–204): the order-book sweep runs only
if `OrderBookTracker != nil`, the order-status sweep only if
`Tracker != nil`; neither sweep can fail. -/
def Client.checkUpdate (c : Client) (fetchBook : String → Except String OrderBook)
    (fetchOrders : String → Status → Except String (List RemoteOrder))
    (now : Int) : Client :=
  let c1 :=
    match c.orderBookTracker with
    | none => c
    | some bt => { c with orderBookTracker := some (bookSweep fetchBook bt) }
  match c1.tracker with
  | none => c1
  | some t => { c1 with tracker := some (statusSweep fetchOrders now t) }

/-! ## Single-flight admission of the book sweep

`Update` (client.go 207–218) creates `c.sem = make(chan struct{}, 1)` and
calls `checkUpdate` once per tick; each tick's book sweep goroutine
(client.go 155–173) sends on `sem` before fetching and receives from it
after `wg.Wait()`.  The transition system below is the semantics of that
capacity-one buffered channel: `pending` counts launched goroutines blocked
at the send on line 156, `sem` the tokens held in the channel (at most its
capacity, 1), `running` the goroutines between the send (line 156) and the
receive (line 172), i.e. book sweeps in flight. -/

/-- State of the book-sweep admission protocol. -/
structure SweepSt where
  pending : Nat
  sem : Nat
  running : Nat
deriving DecidableEq, Repr

/-- Transitions of the book-sweep admission protocol: a tick launches a
goroutine (`launch`, line 155); a blocked goroutine's send succeeds only
while the capacity-1 channel has room (`acquire`, line 156), putting its
sweep in flight; a finished sweep receives its token back (`release`, line
172). -/
inductive SweepStep : SweepSt → SweepSt → Prop
  | launch (p s r : Nat) : SweepStep ⟨p, s, r⟩ ⟨p + 1, s, r⟩
  | acquire (p s r : Nat) : s < 1 → SweepStep ⟨p + 1, s, r⟩ ⟨p, s + 1, r + 1⟩
  | release (p s r : Nat) : SweepStep ⟨p, s + 1, r + 1⟩ ⟨p, s, r⟩

/-- The states reachable from the idle state `Update` starts in (no sweep
launched, channel empty). -/
def SweepReachable (st : SweepSt) : Prop :=
  Relation.ReflTransGen SweepStep ⟨0, 0, 0⟩ st

/-! ## Keyed-store lemmas -/

/-- `find?` by key commutes with a key-preserving map. -/
theorem find_key_map (t : List OrderInfo) (g : OrderInfo → OrderInfo)
    (hg : ∀ o, (g o).orderID = o.orderID) (id : Int) :
    (t.map g).find? (fun o => o.orderID == id) =
      (t.find? fun o => o.orderID == id).map g := by
  induction t with
  | nil => rfl
  | cons h tl ih =>
    simp only [List.map_cons, List.find?_cons, hg h]
    cases hc : (h.orderID == id) <;> simp [ih]

/-- Lookup after an update-in-place by id: the update is applied pointwise
to the looked-up record. -/
theorem Tracker.get_mapUpd (t : Tracker) (id id' : Int) (f : OrderInfo → OrderInfo)
    (hf : ∀ o, (f o).orderID = o.orderID) :
    (t.mapUpd id f).get id' =
      (t.get id').map fun o => if o.orderID = id then f o else o := by
  have hg : ∀ o, ((fun o => if o.orderID = id then f o else o) o).orderID = o.orderID := by
    intro o
    by_cases h : o.orderID = id <;> simp [h, hf]
  simpa [Tracker.get, Tracker.mapUpd] using find_key_map t _ hg id'

/-- A found record carries the looked-up key. -/
theorem Tracker.get_key (t : Tracker) (id : Int) (o : OrderInfo)
    (h : t.get id = some o) : o.orderID = id := by
  have := List.find?_some h
  simpa using this

/-- Updating the looked-up id rewrites exactly the found record. -/
theorem Tracker.get_mapUpd_self (t : Tracker) (id : Int) (f : OrderInfo → OrderInfo)
    (hf : ∀ o, (f o).orderID = o.orderID) (o : OrderInfo) (h : t.get id = some o) :
    (t.mapUpd id f).get id = some (f o) := by
  rw [Tracker.get_mapUpd t id id f hf, h]
  simp [Tracker.get_key t id o h]

/-- Updating a different id leaves a lookup unchanged. -/
theorem Tracker.get_mapUpd_ne (t : Tracker) (id id' : Int) (f : OrderInfo → OrderInfo)
    (hf : ∀ o, (f o).orderID = o.orderID) (hne : id' ≠ id) :
    (t.mapUpd id f).get id' = t.get id' := by
  rw [Tracker.get_mapUpd t id id' f hf]
  cases h : t.get id' with
  | none => rfl
  | some o =>
    have hkey := Tracker.get_key t id' o h
    simp [hkey, hne]

/-- An update-in-place targeting an absent id is a no-op. -/
theorem Tracker.mapUpd_absent (t : Tracker) (id : Int) (f : OrderInfo → OrderInfo)
    (h : t.get id = none) : t.mapUpd id f = t := by
  induction t with
  | nil => rfl
  | cons hd tl ih =>
    simp only [Tracker.get] at h ih
    by_cases hc : hd.orderID = id
    · rw [List.find?_cons_of_pos _ (by simp [hc])] at h
      simp at h
    · rw [List.find?_cons_of_neg _ (by simp [hc])] at h
      simp only [Tracker.mapUpd, List.map_cons] at ih ⊢
      simp [hc, ih h]

/-- Lookups survive a cancel: cancelling (any id) never adds or removes
entries, it only rewrites fields. -/
theorem Tracker.isSome_get_cancel (t : Tracker) (id id' : Int) :
    ((t.cancel id').get id).isSome = (t.get id).isSome := by
  unfold Tracker.cancel
  rw [Tracker.get_mapUpd t id' id (fun o => { o with status := .cancelled })
    (fun _ => rfl)]
  cases t.get id <;> rfl

/-- Filtering for a key after filtering it away yields nothing. -/
theorem filter_ne_filter_eq (t : List OrderInfo) (id : Int) :
    ((t.filter fun o => o.orderID != id).filter fun o => o.orderID == id) = [] := by
  induction t with
  | nil => rfl
  | cons h tl ih =>
    by_cases hc : h.orderID = id <;> simp [List.filter_cons, hc, ih]

/-- Recording an order leaves exactly one entry under its id. -/
theorem Tracker.newOrder_unique (t : Tracker) (symbol : String) (side : Side)
    (status : Status) (id : Int) (amount price : Rat) :
    ((t.newOrder symbol side status id amount price).filter fun o => o.orderID == id) =
      [{ orderID := id, tradePair := symbol, side := side, status := status,
         amount := amount, price := price, accepted := none, completedAt := none }] := by
  simp [Tracker.newOrder, List.filter_cons, filter_ne_filter_eq]

/-! ## Claims -/

/-- **C1** — Place (Buy/Sell) is atomic: for every invocation whose symbol
normalizes, if the remote placement call fails the Gateway's error is
returned unchanged and the client (hence the Tracker) is unmodified; if it
succeeds, the id is returned and the Tracker afterwards holds exactly one
entry under the returned id, with status `submitted` and the supplied
(normalized) symbol, side, amount and price. -/
theorem place_atomic (c : Client) (t : Tracker) (ht : c.tracker = some t)
    (symbol sym : String) (hn : normalize symbol = .ok sym) (price amount : Rat) :
    (∀ e, c.Buy (.error e) symbol price amount = (.error (.remote e), c) ∧
          c.Sell (.error e) symbol price amount = (.error (.remote e), c)) ∧
    (∀ id,
      c.Buy (.ok id) symbol price amount =
        (.ok id, { c with tracker := some (t.newOrder sym .buy .submitted id amount price) }) ∧
      c.Sell (.ok id) symbol price amount =
        (.ok id, { c with tracker := some (t.newOrder sym .sell .submitted id amount price) }) ∧
      ∀ side,
        ((t.newOrder sym side .submitted id amount price).filter
            fun o => o.orderID == id) =
          [{ orderID := id, tradePair := sym, side := side, status := .submitted,
             amount := amount, price := price, accepted := none, completedAt := none }]) := by
  refine ⟨fun e => ⟨?_, ?_⟩, fun id => ⟨?_, ?_, fun side => Tracker.newOrder_unique ..⟩⟩ <;>
    simp [Client.Buy, Client.Sell, hn, ht]

/-- Witness for C1 at a concrete placement. -/
theorem place_atomic_witness :
    Client.Buy { tracker := some [], orderBookTracker := none } (.ok 42) "BTC_SKY" 100 1 =
      (.ok 42,
        { tracker := some [{ orderID := 42, tradePair := "BTC_SKY", side := .buy,
                             status := .submitted, amount := 1, price := 100,
                             accepted := none, completedAt := none }],
          orderBookTracker := none }) :=
  ((place_atomic { tracker := some [], orderBookTracker := none } [] rfl
      "BTC_SKY" "BTC_SKY" rfl 100 1).2 42).1

/-- **C2** — Cancel(orderID): if the remote cancel fails the error is
returned and the client is untouched; on remote success a tracked entry is
transitioned to `cancelled` and the refreshed record is returned; an id the
Tracker has no entry for fails with `NotTracked` leaving the client
unchanged (the remote cancel having already been issued). -/
theorem cancel_spec (c : Client) (t : Tracker) (ht : c.tracker = some t) (id : Int) :
    (∀ e, c.Cancel (some e) id = (.error (.remote e), c)) ∧
    (∀ o, t.get id = some o →
      c.Cancel none id =
        (.ok { o with status := .cancelled }, { c with tracker := some (t.cancel id) }) ∧
      (t.cancel id).get id = some { o with status := .cancelled }) ∧
    (t.get id = none → c.Cancel none id = (.error .notTracked, c)) := by
  refine ⟨fun e => rfl, fun o ho => ?_, fun hnone => ?_⟩
  · have hget : (t.cancel id).get id = some { o with status := .cancelled } :=
      Tracker.get_mapUpd_self t id (fun o => { o with status := .cancelled })
        (fun _ => rfl) o ho
    exact ⟨by simp [Client.Cancel, ht, hget], hget⟩
  · have heq : t.cancel id = t := Tracker.mapUpd_absent t id _ hnone
    cases c with
    | mk tr bt =>
      cases ht
      simp [Client.Cancel, heq, hnone]

/-- Witness for C2 at a concrete tracked order. -/
theorem cancel_spec_witness :
    Client.Cancel
        { tracker := some [{ orderID := 7, tradePair := "ETH_SKY", side := .sell,
                             status := .opened, amount := 2, price := 3,
                             accepted := some 10, completedAt := none }],
          orderBookTracker := none } none 7 =
      (.ok { orderID := 7, tradePair := "ETH_SKY", side := .sell,
             status := .cancelled, amount := 2, price := 3,
             accepted := some 10, completedAt := none },
       { tracker := some [{ orderID := 7, tradePair := "ETH_SKY", side := .sell,
                            status := .cancelled, amount := 2, price := 3,
                            accepted := some 10, completedAt := none }],
         orderBookTracker := none }) :=
  ((cancel_spec
      { tracker := some [{ orderID := 7, tradePair := "ETH_SKY", side := .sell,
                           status := .opened, amount := 2, price := 3,
                           accepted := some 10, completedAt := none }],
        orderBookTracker := none }
      [{ orderID := 7, tradePair := "ETH_SKY", side := .sell,
         status := .opened, amount := 2, price := 3,
         accepted := some 10, completedAt := none }] rfl 7).2.1
    { orderID := 7, tradePair := "ETH_SKY", side := .sell,
      status := .opened, amount := 2, price := 3,
      accepted := some 10, completedAt := none } rfl).1

/-- **C3** — for every venue order returned by an order-status sweep task
whose id the Tracker knows: status `opened` or `partially-filled` updates
the entry's details (symbol and a creation timestamp converted from the
venue's epoch-seconds `CreateDate`); `cancelled` transitions the entry to
`cancelled`; `completed` transitions it to `completed` stamped with the
sweep's local observation time `now`, not a venue-reported time. -/
theorem sweep_merge (t : Tracker) (symbol : String) (now : Int) (o : RemoteOrder)
    (e : OrderInfo) (he : t.get o.orderID = some e) :
    (applyOrder t symbol .opened now o).get o.orderID =
        some { e with tradePair := symbol, accepted := some (unixToTime o.createDate) } ∧
    (applyOrder t symbol .partialFill now o).get o.orderID =
        some { e with tradePair := symbol, accepted := some (unixToTime o.createDate) } ∧
    (applyOrder t symbol .cancelled now o).get o.orderID =
        some { e with status := .cancelled } ∧
    (applyOrder t symbol .completed now o).get o.orderID =
        some { e with status := .completed, completedAt := some now } := by
  refine ⟨?_, ?_, ?_, ?_⟩
  · exact Tracker.get_mapUpd_self t o.orderID
      (fun x => { x with tradePair := symbol, accepted := some (unixToTime o.createDate) })
      (fun _ => rfl) e he
  · exact Tracker.get_mapUpd_self t o.orderID
      (fun x => { x with tradePair := symbol, accepted := some (unixToTime o.createDate) })
      (fun _ => rfl) e he
  · exact Tracker.get_mapUpd_self t o.orderID
      (fun x => { x with status := .cancelled }) (fun _ => rfl) e he
  · exact Tracker.get_mapUpd_self t o.orderID
      (fun x => { x with status := .completed, completedAt := some now })
      (fun _ => rfl) e he

/-- Witness for C3 at a concrete tracked order and venue record. -/
theorem sweep_merge_witness :
    (applyOrder
        [{ orderID := 5, tradePair := "BTC_SKY", side := .buy, status := .submitted,
           amount := 1, price := 2, accepted := none, completedAt := none }]
        "BTC_SKY" .completed 99 { orderID := 5, createDate := 33 }).get 5 =
      some { orderID := 5, tradePair := "BTC_SKY", side := .buy, status := .completed,
             amount := 1, price := 2, accepted := none, completedAt := some 99 } :=
  (sweep_merge
      [{ orderID := 5, tradePair := "BTC_SKY", side := .buy, status := .submitted,
         amount := 1, price := 2, accepted := none, completedAt := none }]
      "BTC_SKY" 99 { orderID := 5, createDate := 33 }
      { orderID := 5, tradePair := "BTC_SKY", side := .buy, status := .submitted,
        amount := 1, price := 2, accepted := none, completedAt := none } rfl).2.2.2

/-- **C4** counterexample — "Cancel on a terminal order must fail rather
than silently transition it" is false on the code: with order 42 already
`completed` and the remote cancel succeeding, `Cancel` returns no error and
the record transitioned to `cancelled`. -/
theorem cancel_terminal_counterexample :
    (Client.Cancel
        { tracker := some [{ orderID := 42, tradePair := "BTC_USDT", side := .buy,
                             status := .completed, amount := 1, price := 100,
                             accepted := none, completedAt := some 7 }],
          orderBookTracker := none } none 42).1 =
      .ok { orderID := 42, tradePair := "BTC_USDT", side := .buy,
            status := .cancelled, amount := 1, price := 100,
            accepted := none, completedAt := some 7 } := rfl

/-- **C4** amended — terminality is not monotonic: the Client performs no
terminality check and the Tracker capability updates in place by id, so for
a tracked order already in a terminal status, a sweep result reporting
`cancelled` moves it to `cancelled`, one reporting `completed` re-stamps it
`completed` at the new observation time, one reporting `opened` or
`partially-filled` rewrites its details leaving the status in place, and a
later `Cancel` whose remote call succeeds does not fail: it returns the
record transitioned to `cancelled`. -/
theorem terminal_not_monotonic (c : Client) (t : Tracker) (ht : c.tracker = some t)
    (id : Int) (o : OrderInfo) (hget : t.get id = some o)
    (_hterm : o.status.isTerminal = true) (now : Int) (symbol : String)
    (ro : RemoteOrder) (hro : ro.orderID = id) :
    (applyOrder t symbol .cancelled now ro).get id =
        some { o with status := .cancelled } ∧
    (applyOrder t symbol .completed now ro).get id =
        some { o with status := .completed, completedAt := some now } ∧
    (applyOrder t symbol .opened now ro).get id =
        some { o with tradePair := symbol, accepted := some (unixToTime ro.createDate) } ∧
    (c.Cancel none id).1 = .ok { o with status := .cancelled } := by
  subst hro
  have hc : (t.cancel ro.orderID).get ro.orderID = some { o with status := .cancelled } :=
    Tracker.get_mapUpd_self t ro.orderID (fun x => { x with status := .cancelled })
      (fun _ => rfl) o hget
  refine ⟨hc, ?_, ?_, ?_⟩
  · exact Tracker.get_mapUpd_self t ro.orderID
      (fun x => { x with status := .completed, completedAt := some now })
      (fun _ => rfl) o hget
  · exact Tracker.get_mapUpd_self t ro.orderID
      (fun x => { x with tradePair := symbol, accepted := some (unixToTime ro.createDate) })
      (fun _ => rfl) o hget
  · simp [Client.Cancel, ht, hc]

/-- Witness for the amended C4 at a concrete completed order. -/
theorem terminal_not_monotonic_witness :
    (applyOrder
        [{ orderID := 42, tradePair := "BTC_USDT", side := .buy, status := .completed,
           amount := 1, price := 100, accepted := none, completedAt := some 7 }]
        "BTC_USDT" .cancelled 50 { orderID := 42, createDate := 3 }).get 42 =
      some { orderID := 42, tradePair := "BTC_USDT", side := .buy,
             status := .cancelled, amount := 1, price := 100,
             accepted := none, completedAt := some 7 } :=
  (terminal_not_monotonic
      { tracker := some [{ orderID := 42, tradePair := "BTC_USDT", side := .buy,
                           status := .completed, amount := 1, price := 100,
                           accepted := none, completedAt := some 7 }],
        orderBookTracker := none }
      [{ orderID := 42, tradePair := "BTC_USDT", side := .buy, status := .completed,
         amount := 1, price := 100, accepted := none, completedAt := some 7 }]
      rfl 42
      { orderID := 42, tradePair := "BTC_USDT", side := .buy, status := .completed,
        amount := 1, price := 100, accepted := none, completedAt := some 7 }
      rfl rfl 50 "BTC_USDT" { orderID := 42, createDate := 3 } rfl).1

/-! ## Batch cancellation -/

/-- `cancelList` over a list whose first remote cancel failure sits right
after the prefix `pre` of remotely-cancellable tracked orders: the loop
cancels `pre` in turn, stops at the failure, reports the error alongside
the partial (length-of-`pre`) result list, and the final tracker is `t`
with exactly the prefix's ids cancelled. -/
theorem cancelList_spec (remote : Int → Option String) (e : String)
    (pre : List OrderInfo) :
    ∀ (c : Client) (t : Tracker), c.tracker = some t →
      (∀ u ∈ pre, remote u.orderID = none ∧ (t.get u.orderID).isSome = true) →
      ∀ (v : OrderInfo) (post : List OrderInfo), remote v.orderID = some e →
      (c.cancelList remote (pre ++ v :: post)).1.2 = some (.remote e) ∧
      (c.cancelList remote (pre ++ v :: post)).1.1.length = pre.length ∧
      (c.cancelList remote (pre ++ v :: post)).2.tracker =
        some (pre.foldl (fun a u => a.cancel u.orderID) t) := by
  induction pre with
  | nil =>
    intro c t ht _ v post hv
    simp [Client.cancelList, Client.Cancel, hv, ht]
  | cons u us ih =>
    intro c t ht hpre v post hv
    obtain ⟨hu, husome⟩ := hpre u (List.mem_cons_self u us)
    obtain ⟨o, ho⟩ := Option.isSome_iff_exists.mp husome
    have hget : (t.cancel u.orderID).get u.orderID = some { o with status := .cancelled } :=
      Tracker.get_mapUpd_self t u.orderID (fun x => { x with status := .cancelled })
        (fun _ => rfl) o ho
    have hrec := ih { c with tracker := some (t.cancel u.orderID) } (t.cancel u.orderID)
      rfl
      (fun w hw => ⟨(hpre w (List.mem_cons_of_mem u hw)).1, by
        rw [Tracker.isSome_get_cancel]
        exact (hpre w (List.mem_cons_of_mem u hw)).2⟩)
      v post hv
    simp only [List.cons_append, Client.cancelList, hu, Client.Cancel, ht, hget]
    exact ⟨hrec.1, by simp [hrec.2.1], hrec.2.2⟩

/-- Cancelling only ids other than `id` leaves the record at `id` alone. -/
theorem foldl_cancel_get_ne (pre : List OrderInfo) :
    ∀ (t : Tracker) (id : Int), (∀ u ∈ pre, u.orderID ≠ id) →
      (pre.foldl (fun a u => a.cancel u.orderID) t).get id = t.get id := by
  induction pre with
  | nil => intro t id _; rfl
  | cons u us ih =>
    intro t id h
    rw [List.foldl_cons, ih (t.cancel u.orderID) id
      (fun w hw => h w (List.mem_cons_of_mem u hw))]
    exact Tracker.get_mapUpd_ne t u.orderID id
      (fun x => { x with status := .cancelled }) (fun _ => rfl)
      (fun hc => (h u (List.mem_cons_self u us)) hc.symm)

/-- The `CancelMarket` loop is the `CancelAll` loop over the orders whose
trade pair matches the normalized symbol. -/
theorem cancelListSym_eq_filter (remote : Int → Option String) (symbol : String) :
    ∀ (l : List OrderInfo) (c : Client),
      c.cancelListSym remote symbol l =
        c.cancelList remote (l.filter fun o => o.tradePair == symbol) := by
  intro l
  induction l with
  | nil => intro c; rfl
  | cons v vs ih =>
    intro c
    by_cases hc : v.tradePair = symbol
    · simp only [Client.cancelListSym, List.filter_cons, hc, if_pos, beq_self_eq_true,
        Client.cancelList]
      cases hcc : c.Cancel (remote v.orderID) v.orderID with
      | mk fst snd => cases fst <;> simp [ih]
    · simp [Client.cancelListSym, List.filter_cons, hc, ih c]

/-- **C5** — `CancelAll` and `CancelMarket` enumerate the Tracker's
executed orders (`CancelMarket` only those matching the normalized symbol)
and cancel each in turn; when the remote cancel first fails after the
prefix `pre`, the loop stops there, returning the partial list of the
`pre.length` orders cancelled so far together with the error, the final
tracker has exactly the prefix's ids cancelled, and any other tracked
order — the orders after the failure in particular — is left exactly as it
was (remains live). -/
theorem cancel_batch_first_failure (c : Client) (t : Tracker) (ht : c.tracker = some t)
    (remote : Int → Option String) (e : String) (pre : List OrderInfo)
    (v : OrderInfo) (post : List OrderInfo)
    (hpre : ∀ u ∈ pre, remote u.orderID = none ∧ (t.get u.orderID).isSome = true)
    (hv : remote v.orderID = some e) :
    (t.executed = pre ++ v :: post →
      (c.CancelAll remote).1.2 = some (.remote e) ∧
      (c.CancelAll remote).1.1.length = pre.length ∧
      (c.CancelAll remote).2.tracker =
        some (pre.foldl (fun a u => a.cancel u.orderID) t)) ∧
    (∀ symbol sym, normalize symbol = .ok sym →
      (t.executed.filter fun o => o.tradePair == sym) = pre ++ v :: post →
      (c.CancelMarket remote symbol).1.2 = some (.remote e) ∧
      (c.CancelMarket remote symbol).1.1.length = pre.length ∧
      (c.CancelMarket remote symbol).2.tracker =
        some (pre.foldl (fun a u => a.cancel u.orderID) t)) ∧
    (∀ w id, t.get id = some w → (∀ u ∈ pre, u.orderID ≠ id) →
      (pre.foldl (fun a u => a.cancel u.orderID) t).get id = some w) := by
  refine ⟨fun hex => ?_, fun symbol sym hn hex => ?_, fun w id hw hne => ?_⟩
  · have h := cancelList_spec remote e pre c t ht hpre v post hv
    rw [← hex] at h
    simpa [Client.CancelAll, ht] using h
  · have h := cancelList_spec remote e pre c t ht hpre v post hv
    rw [← hex] at h
    simpa [Client.CancelMarket, hn, ht, cancelListSym_eq_filter] using h
  · rw [foldl_cancel_get_ne pre t id hne]
    exact hw

/-- Witness for C5: the spec's scenario — `CancelMarket("eth_usdt")` with
three live orders on that symbol and a remote failure on the second cancel
returns a one-element result list and an error, and the third order is
still live in the final tracker. -/
theorem cancel_batch_first_failure_witness :
    (Client.CancelMarket
        { tracker := some
            [{ orderID := 1, tradePair := "ETH_USDT", side := .buy, status := .submitted,
               amount := 1, price := 10, accepted := none, completedAt := none },
             { orderID := 2, tradePair := "ETH_USDT", side := .buy, status := .submitted,
               amount := 2, price := 20, accepted := none, completedAt := none },
             { orderID := 3, tradePair := "ETH_USDT", side := .buy, status := .submitted,
               amount := 3, price := 30, accepted := none, completedAt := none }],
          orderBookTracker := none }
        (fun i => if i = 2 then some "boom" else none) "eth_usdt").1.2 =
      some (.remote "boom") ∧
    (Client.CancelMarket
        { tracker := some
            [{ orderID := 1, tradePair := "ETH_USDT", side := .buy, status := .submitted,
               amount := 1, price := 10, accepted := none, completedAt := none },
             { orderID := 2, tradePair := "ETH_USDT", side := .buy, status := .submitted,
               amount := 2, price := 20, accepted := none, completedAt := none },
             { orderID := 3, tradePair := "ETH_USDT", side := .buy, status := .submitted,
               amount := 3, price := 30, accepted := none, completedAt := none }],
          orderBookTracker := none }
        (fun i => if i = 2 then some "boom" else none) "eth_usdt").1.1.length = 1 ∧
    (Tracker.cancel
          [{ orderID := 1, tradePair := "ETH_USDT", side := .buy, status := .submitted,
             amount := 1, price := 10, accepted := none, completedAt := none },
           { orderID := 2, tradePair := "ETH_USDT", side := .buy, status := .submitted,
             amount := 2, price := 20, accepted := none, completedAt := none },
           { orderID := 3, tradePair := "ETH_USDT", side := .buy, status := .submitted,
             amount := 3, price := 30, accepted := none, completedAt := none }] 1).get 3 =
      some { orderID := 3, tradePair := "ETH_USDT", side := .buy, status := .submitted,
             amount := 3, price := 30, accepted := none, completedAt := none } :=
  ⟨((cancel_batch_first_failure
      { tracker := some
          [{ orderID := 1, tradePair := "ETH_USDT", side := .buy, status := .submitted,
             amount := 1, price := 10, accepted := none, completedAt := none },
           { orderID := 2, tradePair := "ETH_USDT", side := .buy, status := .submitted,
             amount := 2, price := 20, accepted := none, completedAt := none },
           { orderID := 3, tradePair := "ETH_USDT", side := .buy, status := .submitted,
             amount := 3, price := 30, accepted := none, completedAt := none }],
        orderBookTracker := none }
      [{ orderID := 1, tradePair := "ETH_USDT", side := .buy, status := .submitted,
         amount := 1, price := 10, accepted := none, completedAt := none },
       { orderID := 2, tradePair := "ETH_USDT", side := .buy, status := .submitted,
         amount := 2, price := 20, accepted := none, completedAt := none },
       { orderID := 3, tradePair := "ETH_USDT", side := .buy, status := .submitted,
         amount := 3, price := 30, accepted := none, completedAt := none }]
      rfl (fun i => if i = 2 then some "boom" else none) "boom"
      [{ orderID := 1, tradePair := "ETH_USDT", side := .buy, status := .submitted,
         amount := 1, price := 10, accepted := none, completedAt := none }]
      { orderID := 2, tradePair := "ETH_USDT", side := .buy, status := .submitted,
        amount := 2, price := 20, accepted := none, completedAt := none }
      [{ orderID := 3, tradePair := "ETH_USDT", side := .buy, status := .submitted,
         amount := 3, price := 30, accepted := none, completedAt := none }]
      (by decide) rfl).2.1 "eth_usdt" "ETH_USDT" rfl rfl).1,
   ((cancel_batch_first_failure
      { tracker := some
          [{ orderID := 1, tradePair := "ETH_USDT", side := .buy, status := .submitted,
             amount := 1, price := 10, accepted := none, completedAt := none },
           { orderID := 2, tradePair := "ETH_USDT", side := .buy, status := .submitted,
             amount := 2, price := 20, accepted := none, completedAt := none },
           { orderID := 3, tradePair := "ETH_USDT", side := .buy, status := .submitted,
             amount := 3, price := 30, accepted := none, completedAt := none }],
        orderBookTracker := none }
      [{ orderID := 1, tradePair := "ETH_USDT", side := .buy, status := .submitted,
         amount := 1, price := 10, accepted := none, completedAt := none },
       { orderID := 2, tradePair := "ETH_USDT", side := .buy, status := .submitted,
         amount := 2, price := 20, accepted := none, completedAt := none },
       { orderID := 3, tradePair := "ETH_USDT", side := .buy, status := .submitted,
         amount := 3, price := 30, accepted := none, completedAt := none }]
      rfl (fun i => if i = 2 then some "boom" else none) "boom"
      [{ orderID := 1, tradePair := "ETH_USDT", side := .buy, status := .submitted,
         amount := 1, price := 10, accepted := none, completedAt := none }]
      { orderID := 2, tradePair := "ETH_USDT", side := .buy, status := .submitted,
        amount := 2, price := 20, accepted := none, completedAt := none }
      [{ orderID := 3, tradePair := "ETH_USDT", side := .buy, status := .submitted,
         amount := 3, price := 30, accepted := none, completedAt := none }]
      (by decide) rfl).2.1 "eth_usdt" "ETH_USDT" rfl rfl).2.1,
   (cancel_batch_first_failure
      { tracker := some
          [{ orderID := 1, tradePair := "ETH_USDT", side := .buy, status := .submitted,
             amount := 1, price := 10, accepted := none, completedAt := none },
           { orderID := 2, tradePair := "ETH_USDT", side := .buy, status := .submitted,
             amount := 2, price := 20, accepted := none, completedAt := none },
           { orderID := 3, tradePair := "ETH_USDT", side := .buy, status := .submitted,
             amount := 3, price := 30, accepted := none, completedAt := none }],
        orderBookTracker := none }
      [{ orderID := 1, tradePair := "ETH_USDT", side := .buy, status := .submitted,
         amount := 1, price := 10, accepted := none, completedAt := none },
       { orderID := 2, tradePair := "ETH_USDT", side := .buy, status := .submitted,
         amount := 2, price := 20, accepted := none, completedAt := none },
       { orderID := 3, tradePair := "ETH_USDT", side := .buy, status := .submitted,
         amount := 3, price := 30, accepted := none, completedAt := none }]
      rfl (fun i => if i = 2 then some "boom" else none) "boom"
      [{ orderID := 1, tradePair := "ETH_USDT", side := .buy, status := .submitted,
         amount := 1, price := 10, accepted := none, completedAt := none }]
      { orderID := 2, tradePair := "ETH_USDT", side := .buy, status := .submitted,
        amount := 2, price := 20, accepted := none, completedAt := none }
      [{ orderID := 3, tradePair := "ETH_USDT", side := .buy, status := .submitted,
         amount := 3, price := 30, accepted := none, completedAt := none }]
      (by decide) rfl).2.2
     { orderID := 3, tradePair := "ETH_USDT", side := .buy, status := .submitted,
       amount := 3, price := 30, accepted := none, completedAt := none }
     3 rfl (by decide)⟩

/-! ## Single-flight admission invariant -/

/-- Invariant of the admission protocol: the channel never exceeds its
capacity of one, and each held token corresponds to exactly one sweep in
flight. -/
theorem sweep_invariant (st : SweepSt) (h : SweepReachable st) :
    st.sem ≤ 1 ∧ st.running = st.sem := by
  induction h with
  | refl => exact ⟨Nat.zero_le 1, rfl⟩
  | tail _ hstep ih =>
    cases hstep with
    | launch p s r => exact ih
    | acquire p s r hs =>
      have h2 : r = s := ih.2
      exact ⟨hs, show r + 1 = s + 1 by omega⟩
    | release p s r =>
      have h1 : s + 1 ≤ 1 := ih.1
      have h2 : r + 1 = s + 1 := ih.2
      exact ⟨show s ≤ 1 by omega, show r = s by omega⟩

/-- **C6** — at most one order-book sweep is in flight at any time
regardless of tick rate: in every reachable state of the capacity-one
admission channel at most one goroutine sits between the token send and the
token receive, so two sweep cycles launched in rapid succession never put
two book-fetch task groups (hence two fetch tasks for the same symbol) in
flight concurrently; while the token is held, no step drops a pending
attempt (the pending count cannot decrease), and whenever the token is free
a pending attempt can acquire it. -/
theorem book_sweep_single_flight :
    (∀ st, SweepReachable st → st.running ≤ 1) ∧
    (∀ st st', SweepStep st st' → st.sem = 1 → st.pending ≤ st'.pending) ∧
    (∀ p r, SweepStep ⟨p + 1, 0, r⟩ ⟨p, 1, r + 1⟩) := by
  refine ⟨fun st h => ?_, fun st st' hstep hsem => ?_, fun p r => ?_⟩
  · obtain ⟨h1, h2⟩ := sweep_invariant st h
    omega
  · cases hstep with
    | launch p s r => exact Nat.le_succ p
    | acquire p s r hs =>
      have h1 : s = 1 := hsem
      omega
    | release p s r => exact le_refl p
  · exact SweepStep.acquire p 0 r Nat.zero_lt_one

/-- Witness for C6: the idle state is reachable with no sweep in flight, a
launch while the token is held keeps the attempt pending, and acquisition
fires once the token is free. -/
theorem book_sweep_single_flight_witness :
    (⟨0, 0, 0⟩ : SweepSt).running ≤ 1 ∧
    (⟨2, 1, 1⟩ : SweepSt).pending ≤ (⟨3, 1, 1⟩ : SweepSt).pending ∧
    SweepStep ⟨1, 0, 0⟩ ⟨0, 1, 1⟩ :=
  ⟨book_sweep_single_flight.1 ⟨0, 0, 0⟩ Relation.ReflTransGen.refl,
   book_sweep_single_flight.2.1 ⟨2, 1, 1⟩ ⟨3, 1, 1⟩ (SweepStep.launch 2 1 1) rfl,
   book_sweep_single_flight.2.2 0 0⟩

/-! ## Book sweep isolation -/

/-- A symbol outside the polled list keeps its snapshot across the fold of
book tasks. -/
theorem bookSweep_frame (fetch : String → Except String OrderBook) :
    ∀ (l : List String) (bt : BookTracker) (s : String), s ∉ l →
      l.foldl (bookTask fetch) bt s = bt s := by
  intro l
  induction l with
  | nil => intro bt s _; rfl
  | cons a as ih =>
    intro bt s hs
    rw [List.foldl_cons, ih (bookTask fetch bt a) s (fun h => hs (List.mem_cons_of_mem a h))]
    unfold bookTask
    cases fetch a with
    | error e => rfl
    | ok b =>
      unfold BookTracker.updateSym
      have hne : s ≠ a := fun h => hs (h ▸ List.mem_cons_self a as)
      simp [hne]

/-- Over distinct polled symbols, the final snapshot at each symbol is
decided by that symbol's own fetch alone: a successful fetch replaces it
wholesale, a failed fetch leaves it untouched. -/
theorem bookSweep_at (fetch : String → Except String OrderBook) :
    ∀ (l : List String), l.Nodup → ∀ (bt : BookTracker) (sym : String), sym ∈ l →
      (∀ b, fetch sym = .ok b → l.foldl (bookTask fetch) bt sym = some b) ∧
      (∀ e, fetch sym = .error e → l.foldl (bookTask fetch) bt sym = bt sym) := by
  intro l
  induction l with
  | nil => intro _ bt sym h; cases h
  | cons a as ih =>
    intro hnd bt sym hmem
    rw [List.nodup_cons] at hnd
    rcases List.mem_cons.mp hmem with h | h
    · subst h
      refine ⟨fun b hb => ?_, fun e he => ?_⟩
      · rw [List.foldl_cons, bookSweep_frame fetch as _ sym hnd.1]
        unfold bookTask
        rw [hb]
        unfold BookTracker.updateSym
        simp
      · rw [List.foldl_cons, bookSweep_frame fetch as _ sym hnd.1]
        unfold bookTask
        rw [he]
    · have hne : sym ≠ a := fun hEq => hnd.1 (hEq ▸ h)
      refine ⟨fun b hb => ?_, fun e he => ?_⟩
      · rw [List.foldl_cons]
        exact (ih hnd.2 (bookTask fetch bt a) sym h).1 b hb
      · rw [List.foldl_cons, (ih hnd.2 (bookTask fetch bt a) sym h).2 e he]
        unfold bookTask
        cases fetch a with
        | error _ => rfl
        | ok b =>
          unfold BookTracker.updateSym
          simp [hne]

/-- **C7** — book sweep isolation: in every sweep cycle, each polled symbol
whose fetch succeeds has its Order-Book Tracker entry replaced wholesale by
the fetched snapshot, each polled symbol whose fetch fails keeps its
snapshot unchanged, symbols outside the polled set are unaffected, and the
sweep as a whole cannot fail (`bookSweep` is total — a per-symbol failure is
dropped, never propagated). -/
theorem book_sweep_isolation (fetch : String → Except String OrderBook)
    (bt : BookTracker) :
    (∀ sym, sym ∈ allowed →
      (∀ b, fetch sym = .ok b → bookSweep fetch bt sym = some b) ∧
      (∀ e, fetch sym = .error e → bookSweep fetch bt sym = bt sym)) ∧
    (∀ s, s ∉ allowed → bookSweep fetch bt s = bt s) :=
  ⟨fun sym hmem => bookSweep_at fetch allowed (by decide) bt sym hmem,
   fun s hs => bookSweep_frame fetch allowed bt s hs⟩

/-- Witness for C7: a cycle in which "ETH_USDT" succeeds and every other
fetch fails updates "ETH_USDT" wholesale and leaves "BTC_SKY" untouched. -/
theorem book_sweep_isolation_witness :
    bookSweep
        (fun s => if s = "ETH_USDT" then
          .ok { bids := [{ price := 1, volume := 2 }], asks := [{ price := 3, volume := 4 }] }
          else .error "down")
        (fun _ => none) "ETH_USDT" =
      some { bids := [{ price := 1, volume := 2 }], asks := [{ price := 3, volume := 4 }] } ∧
    bookSweep
        (fun s => if s = "ETH_USDT" then
          .ok { bids := [{ price := 1, volume := 2 }], asks := [{ price := 3, volume := 4 }] }
          else .error "down")
        (fun _ => none) "BTC_SKY" = none :=
  ⟨((book_sweep_isolation
      (fun s => if s = "ETH_USDT" then
        .ok { bids := [{ price := 1, volume := 2 }], asks := [{ price := 3, volume := 4 }] }
        else .error "down")
      (fun _ => none)).1 "ETH_USDT" (by decide)).1
    { bids := [{ price := 1, volume := 2 }], asks := [{ price := 3, volume := 4 }] } rfl,
   ((book_sweep_isolation
      (fun s => if s = "ETH_USDT" then
        .ok { bids := [{ price := 1, volume := 2 }], asks := [{ price := 3, volume := 4 }] }
        else .error "down")
      (fun _ => none)).1 "BTC_SKY" (by decide)).2 "down" rfl⟩

/-! ## Order-status sweep isolation -/

/-- Failing pairs contribute nothing to the fold of status tasks: the sweep
computes the same tracker as the fold over the successfully fetched pairs
alone. -/
theorem statusSweep_skips (fetch : String → Status → Except String (List RemoteOrder))
    (now : Int) :
    ∀ (ps : List (String × Status)) (t : Tracker),
      ps.foldl (fun t p => statusTask fetch now t p.1 p.2) t =
        (ps.filter fun p => (fetch p.1 p.2).isOk).foldl
          (fun t p => statusTask fetch now t p.1 p.2) t := by
  intro ps
  induction ps with
  | nil => intro t; rfl
  | cons p ps ih =>
    intro t
    rw [List.foldl_cons, List.filter_cons]
    cases hf : fetch p.1 p.2 with
    | error e =>
      have hskip : statusTask fetch now t p.1 p.2 = t := by
        unfold statusTask
        rw [hf]
      simp [Except.isOk, Except.toBool, hf, hskip, ih]
    | ok os =>
      simp [Except.isOk, Except.toBool, hf, ih]

/-- **C8** — order-status sweep failure isolation: a failed fetch for one
(symbol, status) pair leaves the Tracker untouched for that pair, the sweep
equals the fold over the successfully fetched pairs alone (so one pair's
failure never aborts the other pairs' tasks), and `checkUpdate` hands the
scheduler a plain updated client — no error is ever propagated. -/
theorem status_sweep_isolation (fetchBook : String → Except String OrderBook)
    (fetch : String → Status → Except String (List RemoteOrder))
    (now : Int) (t : Tracker) :
    (∀ sym st e, fetch sym st = .error e → statusTask fetch now t sym st = t) ∧
    (statusSweep fetch now t =
      (sweepPairs.filter fun p => (fetch p.1 p.2).isOk).foldl
        (fun t p => statusTask fetch now t p.1 p.2) t) ∧
    (∀ c : Client, c.tracker = some t → c.orderBookTracker = none →
      c.checkUpdate fetchBook fetch now =
        { c with tracker := some (statusSweep fetch now t) }) := by
  refine ⟨fun sym st e he => ?_, ?_, fun c h1 h2 => ?_⟩
  · unfold statusTask
    rw [he]
  · exact statusSweep_skips fetch now sweepPairs t
  · simp [Client.checkUpdate, h1, h2]

/-- Witness for C8: with every fetch failing, the whole sweep leaves an
empty tracker empty and `checkUpdate` returns the client unchanged. -/
theorem status_sweep_isolation_witness :
    statusTask (fun _ _ => .error "down") 0 ([] : Tracker) "BTC_SKY" .opened = [] ∧
    Client.checkUpdate { tracker := some [], orderBookTracker := none }
        (fun _ => .error "x") (fun _ _ => .error "down") 0 =
      { tracker := some (statusSweep (fun _ _ => .error "down") 0 []),
        orderBookTracker := none } :=
  ⟨(status_sweep_isolation (fun _ => .error "x") (fun _ _ => .error "down") 0 []).1
      "BTC_SKY" .opened "down" rfl,
   (status_sweep_isolation (fun _ => .error "x") (fun _ _ => .error "down") 0 []).2.2
      { tracker := some [], orderBookTracker := none } rfl rfl⟩

/-- **C9** counterexample — "returns the entry whose currency key matches
case-insensitively" is false on the code: with the venue map holding the
key "BTC", the query "BTC" (which matches that key case-insensitively)
fails with `CurrencyNotFound`, because the code looks up the lowercased
query verbatim. -/
theorem getBalance_not_case_insensitive :
    (Client.GetBalance { tracker := none, orderBookTracker := none }
        (.ok [("BTC", "1")]) "BTC").1 = .error (.currencyNotFound "BTC") := rfl

/-- **C9** amended — `GetBalance` always performs a live round-trip with no
local caching or mutation: the result is a function of the venue's response
alone and the client state is returned unchanged; the lookup key is the
lowercased currency argument, matched verbatim against the venue map's
keys (case-insensitive in the currency argument, not in the map's keys),
and when that key is absent the call fails with `CurrencyNotFound`. -/
theorem getBalance_spec (c : Client) (currency : String) :
    (∀ e, c.GetBalance (.error e) currency = (.error (.remote e), c)) ∧
    (∀ info, (c.GetBalance (.ok info) currency).2 = c) ∧
    (∀ info v, info.lookup (lower currency) = some v →
      c.GetBalance (.ok info) currency = (.ok v, c)) ∧
    (∀ info, info.lookup (lower currency) = none →
      c.GetBalance (.ok info) currency = (.error (.currencyNotFound currency), c)) := by
  refine ⟨fun e => rfl, fun info => ?_, fun info v hv => ?_, fun info hn => ?_⟩
  · unfold Client.GetBalance
    cases h : info.lookup (lower currency) <;> simp [h]
  · simp [Client.GetBalance, hv]
  · simp [Client.GetBalance, hn]

/-- Witness for the amended C9 at a lowercase venue key. -/
theorem getBalance_spec_witness :
    Client.GetBalance { tracker := none, orderBookTracker := none }
        (.ok [("btc", "1")]) "BTC" =
      (.ok "1", { tracker := none, orderBookTracker := none }) :=
  (getBalance_spec { tracker := none, orderBookTracker := none } "BTC").2.2.1
    [("btc", "1")] "1" rfl

/-- **C10** — the trading and introspection operations dereference the
Tracker unconditionally while the background sweep guards both trackers:
for a client with `Tracker == nil`, Cancel (after its remote call
succeeded), CancelAll, CancelMarket, OrderStatus, OrderDetails, Executed
and Completed all fail with the nil dereference, Buy and Sell fail with it
exactly when the remote placement has already succeeded (a remote failure
is still returned as such, the Tracker never being reached), while
`checkUpdate` skips the guarded sweeps: with no book tracker it is the
identity, and with one it still runs the book sweep unharmed. -/
theorem nil_tracker_behaviour (c : Client) (hnil : c.tracker = none) :
    (∀ symbol sym (price amount : Rat), normalize symbol = .ok sym →
      (∀ id, c.Buy (.ok id) symbol price amount = (.error .nilTracker, c) ∧
             c.Sell (.ok id) symbol price amount = (.error .nilTracker, c)) ∧
      (∀ e, c.Buy (.error e) symbol price amount = (.error (.remote e), c) ∧
            c.Sell (.error e) symbol price amount = (.error (.remote e), c))) ∧
    (∀ id, c.Cancel none id = (.error .nilTracker, c)) ∧
    (∀ remote, c.CancelAll remote = (([], some .nilTracker), c)) ∧
    (∀ remote symbol sym, normalize symbol = .ok sym →
      c.CancelMarket remote symbol = (([], some .nilTracker), c)) ∧
    (∀ id, c.OrderStatus id = .error .nilTracker) ∧
    (∀ id, c.OrderDetails id = .error .nilTracker) ∧
    c.Executed = .error .nilTracker ∧
    c.Completed = .error .nilTracker ∧
    (∀ fetchBook fetchOrders now, c.orderBookTracker = none →
      c.checkUpdate fetchBook fetchOrders now = c) ∧
    (∀ fetchBook fetchOrders now bt, c.orderBookTracker = some bt →
      c.checkUpdate fetchBook fetchOrders now =
        { c with orderBookTracker := some (bookSweep fetchBook bt) }) := by
  refine ⟨fun symbol sym price amount hn =>
      ⟨fun id => ⟨?_, ?_⟩, fun e => ⟨?_, ?_⟩⟩,
    fun id => ?_, fun remote => ?_, fun remote symbol sym hn => ?_,
    fun id => ?_, fun id => ?_, ?_, ?_,
    fun fB fO now hb => ?_, fun fB fO now bt hb => ?_⟩
  · simp [Client.Buy, hn, hnil]
  · simp [Client.Sell, hn, hnil]
  · simp [Client.Buy, hn]
  · simp [Client.Sell, hn]
  · simp [Client.Cancel, hnil]
  · simp [Client.CancelAll, hnil]
  · simp [Client.CancelMarket, hn, hnil]
  · simp [Client.OrderStatus, hnil]
  · simp [Client.OrderDetails, hnil]
  · simp [Client.Executed, hnil]
  · simp [Client.Completed, hnil]
  · simp [Client.checkUpdate, hnil, hb]
  · simp [Client.checkUpdate, hnil, hb]

/-- Witness for C10 at a concrete nil-tracker client: a Buy whose remote
placement succeeded fails on the Tracker dereference; one whose placement
failed surfaces the remote error. -/
theorem nil_tracker_behaviour_witness :
    Client.Buy { tracker := none, orderBookTracker := none } (.ok 5) "BTC_SKY" 10 1 =
      (.error .nilTracker, { tracker := none, orderBookTracker := none }) ∧
    Client.Buy { tracker := none, orderBookTracker := none } (.error "down") "BTC_SKY" 10 1 =
      (.error (.remote "down"), { tracker := none, orderBookTracker := none }) :=
  ⟨(((nil_tracker_behaviour { tracker := none, orderBookTracker := none } rfl).1
      "BTC_SKY" "BTC_SKY" 10 1 rfl).1 5).1,
   (((nil_tracker_behaviour { tracker := none, orderBookTracker := none } rfl).1
      "BTC_SKY" "BTC_SKY" 10 1 rfl).2 "down").1⟩

end C2CX
